import Mathlib

/-!
# iotbus UART shim (`framework/src/iotbus/iotbus_uart.c`)

A shallow embedding of the UART functions of the iotbus framework together
with the statements proved about them.

* The constants of the headers the file includes (`tinyara/config.h`,
  `termios.h`, `iotbus/iotbus_error.h`) are fields of `Headers`; every
  function takes the headers as its first argument.
* The operating system is a `Kernel` (what every system call returns) acting
  on a `World` (the terminal attributes stored for every descriptor and the
  trace of the system calls performed so far).
* Every embedded function returns the new world together with the C return
  value.
-/

namespace IotbusUart

/-! ## Data model -/

/-- Modelled from the spec: `struct termios` of `termios.h`, which is not part
of the source file.  The fields the code touches are `c_iflag`, `c_cflag` and
`c_speed`; the remaining POSIX fields are carried along so that "every other
field" has a meaning.  Flag words are unsigned, hence natural numbers. -/
structure termios where
  c_iflag : Nat
  c_oflag : Nat
  c_cflag : Nat
  c_lflag : Nat
  c_cc : List Nat
  c_speed : Nat
  deriving DecidableEq, Repr

/-- The handle structure `struct _iotbus_uart_s` (lines 37-39): one
descriptor. -/
structure _iotbus_uart_s where
  fd : Int
  deriving DecidableEq, Repr

/-- The handle type `iotbus_uart_context_h`, a pointer to `_iotbus_uart_s`;
`none` is the null pointer. -/
abbrev iotbus_uart_context_h := Option _iotbus_uart_s

/-- A `char *` argument: `none` is the null pointer, `some a` the address
`a`. -/
abbrev CharPtr := Option Nat

/-- Modelled from the spec: the enumeration `iotbus_uart_parity_e` of
`iotbus/iotbus_uart.h`, which is not part of the source file.  The three
enumerators are the case labels of the `switch` in `iotbus_uart_set_mode`;
`other v` stands for any other integer a C caller may pass in a parameter of
enumeration type (the `default:` label). -/
inductive iotbus_uart_parity_e where
  | IOTBUS_UART_PARITY_NONE
  | IOTBUS_UART_PARITY_EVEN
  | IOTBUS_UART_PARITY_ODD
  | other (v : Int)
  deriving DecidableEq, Repr

/-- The constants the source file takes from the headers it includes.  Their
values are not part of the source file, so they are parameters of the
embedding.  Baud and flag constants are non-negative `int` constants, and a
flag constant is a mask of the flag word it is used on, so that or-ing it in
needs no truncation; status codes and selectors are `int`s. -/
structure Headers where
  /-- Whether `CONFIG_SERIAL_TERMIOS` is defined (`tinyara/config.h`). -/
  CONFIG_SERIAL_TERMIOS : Bool
  IOTBUS_ERROR_NONE : Int
  IOTBUS_ERROR_INVALID_PARAMETER : Int
  IOTBUS_ERROR_NOT_SUPPORTED : Int
  IOTBUS_ERROR_UNKNOWN : Int
  B50 : Nat
  B75 : Nat
  B110 : Nat
  B134 : Nat
  B150 : Nat
  B200 : Nat
  B300 : Nat
  B600 : Nat
  B1200 : Nat
  B1800 : Nat
  B2400 : Nat
  B4800 : Nat
  B9600 : Nat
  B19200 : Nat
  B38400 : Nat
  B57600 : Nat
  B115200 : Nat
  B128000 : Nat
  B230400 : Nat
  B256000 : Nat
  B460800 : Nat
  B500000 : Nat
  B576000 : Nat
  B921600 : Nat
  B1000000 : Nat
  B1152000 : Nat
  B1500000 : Nat
  B2000000 : Nat
  B2500000 : Nat
  B3000000 : Nat
  CSIZE : Nat
  CS5 : Nat
  CS6 : Nat
  CS7 : Nat
  CS8 : Nat
  CSTOPB : Nat
  PARENB : Nat
  PARODD : Nat
  CRTS_IFLOW : Nat
  CCTS_OFLOW : Nat
  IXON : Nat
  IXOFF : Nat
  IXANY : Nat
  TCSANOW : Int
  TCIOFLUSH : Int

/-- One system call, as recorded in the trace of a `World`. -/
inductive Syscall where
  | tcgetattr (fd : Int)
  | tcsetattr (fd : Int) (optional_actions : Int) (termiosp : termios)
  | tcflush (fd : Int) (queue_selector : Int)
  | read (fd : Int) (buf : Nat) (nbytes : Nat)
  | write (fd : Int) (buf : Nat) (nbytes : Nat)
  deriving DecidableEq, Repr

/-- The state outside the program: the terminal attributes the driver holds
for every descriptor, and the system calls performed so far (oldest first). -/
structure World where
  attrs : Int → termios
  trace : List Syscall

/-- What the operating system answers.  Every answer may depend on the whole
world, so a call may succeed at one time and fail at another.
`tcgetattr_junk` is what a failed `tcgetattr` leaves in the caller's
uninitialised `struct termios`.  The results of `read` and `write` are the
values assigned to the `int ret` of the callers. -/
structure Kernel where
  tcgetattr_ret : World → Int → Int
  tcgetattr_junk : World → Int → termios
  tcsetattr_ret : World → Int → Int → termios → Int
  tcflush_ret : World → Int → Int → Int
  read_ret : World → Int → Nat → Nat → Int
  write_ret : World → Int → Nat → Nat → Int

/-- Appends one system call to the trace. -/
def World.record (w : World) (c : Syscall) : World :=
  { w with trace := w.trace ++ [c] }

/-- Modelled from the spec: `tcgetattr(fd, &tio)`, which is not part of the
source file.  It returns the attributes last stored for the descriptor and
the result 0, or a non-zero result. -/
def tcgetattr (K : Kernel) (w : World) (fd : Int) : World × Int × termios :=
  let ret := K.tcgetattr_ret w fd
  (w.record (Syscall.tcgetattr fd), ret,
    if ret = 0 then w.attrs fd else K.tcgetattr_junk w fd)

/-- Modelled from the spec: `tcsetattr(fd, optional_actions, &tio)`, which is
not part of the source file.  When it succeeds (result 0) the attributes are
stored for the descriptor; when it fails nothing is stored. -/
def tcsetattr (K : Kernel) (w : World) (fd : Int) (optional_actions : Int)
    (termiosp : termios) : World × Int :=
  let ret := K.tcsetattr_ret w fd optional_actions termiosp
  ({ attrs := if ret = 0 then Function.update w.attrs fd termiosp else w.attrs,
     trace := w.trace ++ [Syscall.tcsetattr fd optional_actions termiosp] }, ret)

/-- Modelled from the spec: `tcflush(fd, queue_selector)`, which is not part
of the source file.  It does not change any terminal attribute. -/
def tcflush (K : Kernel) (w : World) (fd : Int) (queue_selector : Int) : World × Int :=
  (w.record (Syscall.tcflush fd queue_selector), K.tcflush_ret w fd queue_selector)

/-- Modelled from the spec: `read(fd, buf, nbytes)`, which is not part of the
source file.  The bytes stored through `buf` are not modelled. -/
def read (K : Kernel) (w : World) (fd : Int) (buf : Nat) (nbytes : Nat) : World × Int :=
  (w.record (Syscall.read fd buf nbytes), K.read_ret w fd buf nbytes)

/-- Modelled from the spec: `write(fd, buf, nbytes)`, which is not part of the
source file. -/
def write (K : Kernel) (w : World) (fd : Int) (buf : Nat) (nbytes : Nat) : World × Int :=
  (w.record (Syscall.write fd buf nbytes), K.write_ret w fd buf nbytes)

/-- The C expression `c & ~m` for an unsigned flag word `c` and a non-negative
mask constant `m`: the bits of `m` are cleared in `c`.  The complement has
every bit above the mask set, so the value does not depend on the width of
`tcflag_t` (see `clear_bits_eq_width`). -/
def clear_bits (c m : Nat) : Nat := c ^^^ (c &&& m)

/-! ## The source file -/

/-- The table `g_iotbus_uart_br[30]` (lines 41-47). -/
def g_iotbus_uart_br (H : Headers) : List Nat :=
  [H.B50, H.B75, H.B110, H.B134, H.B150,
   H.B200, H.B300, H.B600, H.B1200, H.B1800,
   H.B2400, H.B4800, H.B9600, H.B19200, H.B38400,
   H.B57600, H.B115200, H.B128000, H.B230400, H.B256000,
   H.B460800, H.B500000, H.B576000, H.B921600, H.B1000000,
   H.B1152000, H.B1500000, H.B2000000, H.B2500000, H.B3000000]

/-- The global `g_iotbus_uart_size` (line 48). -/
def g_iotbus_uart_size : Nat := 30

/-- The `for` loop of `_iotbus_valid_baudrate` (lines 61-63), entered with
index `i` and `n` iterations left before `i` reaches `g_iotbus_uart_size`;
it returns 1 from inside the loop on a match and falls out to `return 0`. -/
def _iotbus_valid_baudrate_loop (H : Headers) (rate : Nat) : Nat → Nat → Int
  | 0, _ => 0
  | n + 1, i =>
    if rate = (g_iotbus_uart_br H).getD i 0 then 1
    else _iotbus_valid_baudrate_loop H rate n (i + 1)

/-- The function `_iotbus_valid_baudrate` (lines 58-66): the loop started at
`i = 0`. -/
def _iotbus_valid_baudrate (H : Headers) (rate : Nat) : Int :=
  _iotbus_valid_baudrate_loop H rate (g_iotbus_uart_size - 0) 0

/-- The function `iotbus_uart_flush` (lines 95-112). -/
def iotbus_uart_flush (H : Headers) (K : Kernel) (w : World)
    (hnd : iotbus_uart_context_h) : World × Int :=
  if !H.CONFIG_SERIAL_TERMIOS then (w, H.IOTBUS_ERROR_NOT_SUPPORTED)
  else
    match hnd with
    | none => (w, H.IOTBUS_ERROR_INVALID_PARAMETER)
    | some h =>
      let fd := h.fd
      let (w1, ret) := tcflush K w fd H.TCIOFLUSH
      if ret < 0 then (w1, H.IOTBUS_ERROR_NOT_SUPPORTED)
      else (w1, H.IOTBUS_ERROR_NONE)

/-- The function `iotbus_uart_set_baudrate` (lines 114-141). -/
def iotbus_uart_set_baudrate (H : Headers) (K : Kernel) (w : World)
    (hnd : iotbus_uart_context_h) (baud : Nat) : World × Int :=
  if !H.CONFIG_SERIAL_TERMIOS then (w, H.IOTBUS_ERROR_NOT_SUPPORTED)
  else
    match hnd with
    | none => (w, H.IOTBUS_ERROR_INVALID_PARAMETER)
    | some h =>
      if _iotbus_valid_baudrate H baud = 0 then (w, H.IOTBUS_ERROR_INVALID_PARAMETER)
      else
        let fd := h.fd
        let (w1, ret, tio) := tcgetattr K w fd
        if ret ≠ 0 then (w1, H.IOTBUS_ERROR_UNKNOWN)
        else
          let tio := { tio with c_speed := baud }
          let (w2, ret) := tcsetattr K w1 fd H.TCSANOW tio
          if ret ≠ 0 then (w2, H.IOTBUS_ERROR_UNKNOWN)
          else (w2, H.IOTBUS_ERROR_NONE)

/-- The function `iotbus_uart_set_mode` (lines 144-203).  `afterParity` and
`afterStop` hold the local `tio` when the `switch` is left through `break`
and `none` when it is left through `return IOTBUS_ERROR_INVALID_PARAMETER`. -/
def iotbus_uart_set_mode (H : Headers) (K : Kernel) (w : World)
    (hnd : iotbus_uart_context_h) (bytesize : Int) (parity : iotbus_uart_parity_e)
    (stopbits : Int) : World × Int :=
  if !H.CONFIG_SERIAL_TERMIOS then (w, H.IOTBUS_ERROR_NOT_SUPPORTED)
  else
    match hnd with
    | none => (w, H.IOTBUS_ERROR_INVALID_PARAMETER)
    | some h =>
      let fd := h.fd
      let byteinfo : List Nat := [H.CS5, H.CS6, H.CS7, H.CS8]
      let (w1, ret, tio) := tcgetattr K w fd
      if ret ≠ 0 then (w1, H.IOTBUS_ERROR_UNKNOWN)
      else if bytesize < 5 ∨ bytesize > 8 then (w1, H.IOTBUS_ERROR_INVALID_PARAMETER)
      else
        let tio := { tio with c_cflag := clear_bits tio.c_cflag H.CSIZE }
        let tio := { tio with c_cflag := tio.c_cflag ||| byteinfo.getD (bytesize - 5).toNat 0 }
        let afterParity : Option termios :=
          match parity with
          | .IOTBUS_UART_PARITY_EVEN =>
            let tio := { tio with c_cflag := tio.c_cflag ||| H.PARENB }
            some { tio with c_cflag := clear_bits tio.c_cflag H.PARODD }
          | .IOTBUS_UART_PARITY_ODD =>
            let tio := { tio with c_cflag := tio.c_cflag ||| H.PARENB }
            some { tio with c_cflag := tio.c_cflag ||| H.PARODD }
          | .IOTBUS_UART_PARITY_NONE =>
            let tio := { tio with c_cflag := clear_bits tio.c_cflag H.PARENB }
            some { tio with c_cflag := clear_bits tio.c_cflag H.PARODD }
          | .other _ => none
        match afterParity with
        | none => (w1, H.IOTBUS_ERROR_INVALID_PARAMETER)
        | some tio =>
          let afterStop : Option termios :=
            if stopbits = 1 then some { tio with c_cflag := clear_bits tio.c_cflag H.CSTOPB }
            else if stopbits = 2 then
              -- `case 2:` has no `break`: the flag is set in the local copy and
              -- control falls into `default:`
              let _tio := { tio with c_cflag := tio.c_cflag ||| H.CSTOPB }
              none
            else none
          match afterStop with
          | none => (w1, H.IOTBUS_ERROR_INVALID_PARAMETER)
          | some tio =>
            let (w2, ret) := tcsetattr K w1 fd H.TCSANOW tio
            if ret ≠ 0 then (w2, H.IOTBUS_ERROR_UNKNOWN)
            else (w2, H.IOTBUS_ERROR_NONE)

/-- The function `iotbus_uart_set_flowcontrol` (lines 207-243). -/
def iotbus_uart_set_flowcontrol (H : Headers) (K : Kernel) (w : World)
    (hnd : iotbus_uart_context_h) (xonxoff : Int) (rtscts : Int) : World × Int :=
  if !H.CONFIG_SERIAL_TERMIOS then (w, H.IOTBUS_ERROR_NOT_SUPPORTED)
  else
    match hnd with
    | none => (w, H.IOTBUS_ERROR_INVALID_PARAMETER)
    | some h =>
      if xonxoff ≠ 1 ∧ xonxoff ≠ 0 then (w, H.IOTBUS_ERROR_INVALID_PARAMETER)
      else if rtscts ≠ 1 ∧ rtscts ≠ 0 then (w, H.IOTBUS_ERROR_INVALID_PARAMETER)
      else
        let fd := h.fd
        let (w1, ret, tio) := tcgetattr K w fd
        if ret ≠ 0 then (w1, H.IOTBUS_ERROR_UNKNOWN)
        else
          let tio :=
            if rtscts ≠ 0 then { tio with c_cflag := tio.c_cflag ||| (H.CRTS_IFLOW ||| H.CCTS_OFLOW) }
            else { tio with c_cflag := clear_bits tio.c_cflag (H.CRTS_IFLOW ||| H.CCTS_OFLOW) }
          let tio :=
            if xonxoff ≠ 0 then { tio with c_iflag := tio.c_iflag ||| (H.IXON ||| H.IXOFF ||| H.IXANY) }
            else tio
          let (w2, ret) := tcsetattr K w1 fd H.TCSANOW tio
          if ret ≠ 0 then (w2, H.IOTBUS_ERROR_UNKNOWN)
          else (w2, H.IOTBUS_ERROR_NONE)

/-- The function `iotbus_uart_read` (lines 245-262). -/
def iotbus_uart_read (H : Headers) (K : Kernel) (w : World)
    (hnd : iotbus_uart_context_h) (buf : CharPtr) (length : Nat) : World × Int :=
  match hnd with
  | none => (w, H.IOTBUS_ERROR_INVALID_PARAMETER)
  | some h =>
    match buf with
    | none => (w, H.IOTBUS_ERROR_INVALID_PARAMETER)
    | some b =>
      if length ≤ 0 then (w, H.IOTBUS_ERROR_INVALID_PARAMETER)
      else
        let fd := h.fd
        let (w1, ret) := read K w fd b length
        if ret < 0 then (w1, H.IOTBUS_ERROR_UNKNOWN)
        else (w1, ret)

/-- The function `iotbus_uart_write` (lines 264-281). -/
def iotbus_uart_write (H : Headers) (K : Kernel) (w : World)
    (hnd : iotbus_uart_context_h) (buf : CharPtr) (length : Nat) : World × Int :=
  match hnd with
  | none => (w, H.IOTBUS_ERROR_INVALID_PARAMETER)
  | some h =>
    match buf with
    | none => (w, H.IOTBUS_ERROR_INVALID_PARAMETER)
    | some b =>
      if length ≤ 0 then (w, H.IOTBUS_ERROR_INVALID_PARAMETER)
      else
        let fd := h.fd
        let (w1, ret) := write K w fd b length
        if ret < 0 then (w1, H.IOTBUS_ERROR_UNKNOWN)
        else (w1, ret)

/-! ## Sample platform

Concrete headers, kernels and worlds on which the definitions can be
evaluated. -/

/-- Modelled from the spec: one assignment of values to the header constants,
which are not part of the source file.  The baud constants are the 30 rates
themselves (50 through 3,000,000), the status codes are 0 for success and
distinct negative numbers for the three failures, and the flag constants are
single bits except for the two-bit character-size field. -/
def sample_headers : Headers where
  CONFIG_SERIAL_TERMIOS := true
  IOTBUS_ERROR_NONE := 0
  IOTBUS_ERROR_INVALID_PARAMETER := -1
  IOTBUS_ERROR_NOT_SUPPORTED := -2
  IOTBUS_ERROR_UNKNOWN := -999
  B50 := 50
  B75 := 75
  B110 := 110
  B134 := 134
  B150 := 150
  B200 := 200
  B300 := 300
  B600 := 600
  B1200 := 1200
  B1800 := 1800
  B2400 := 2400
  B4800 := 4800
  B9600 := 9600
  B19200 := 19200
  B38400 := 38400
  B57600 := 57600
  B115200 := 115200
  B128000 := 128000
  B230400 := 230400
  B256000 := 256000
  B460800 := 460800
  B500000 := 500000
  B576000 := 576000
  B921600 := 921600
  B1000000 := 1000000
  B1152000 := 1152000
  B1500000 := 1500000
  B2000000 := 2000000
  B2500000 := 2500000
  B3000000 := 3000000
  CSIZE := 3
  CS5 := 0
  CS6 := 1
  CS7 := 2
  CS8 := 3
  CSTOPB := 4
  PARENB := 16
  PARODD := 32
  CRTS_IFLOW := 512
  CCTS_OFLOW := 256
  IXON := 2048
  IXOFF := 1024
  IXANY := 512
  TCSANOW := 0
  TCIOFLUSH := 2

/-- The sample headers with `CONFIG_SERIAL_TERMIOS` undefined. -/
def sample_headers_no_termios : Headers :=
  { sample_headers with CONFIG_SERIAL_TERMIOS := false }

/-- A kernel on which every call succeeds; `read` and `write` transfer
`nbytes - 1` bytes, one less than asked for. -/
def ok_kernel : Kernel where
  tcgetattr_ret := fun _ _ => 0
  tcgetattr_junk := fun _ _ => ⟨0, 0, 0, 0, [], 0⟩
  tcsetattr_ret := fun _ _ _ _ => 0
  tcflush_ret := fun _ _ _ => 0
  read_ret := fun _ _ _ n => (n : Int) - 1
  write_ret := fun _ _ _ n => (n : Int) - 1

/-- A kernel on which every call fails with -1. -/
def failing_kernel : Kernel where
  tcgetattr_ret := fun _ _ => -1
  tcgetattr_junk := fun _ _ => ⟨0, 0, 0, 0, [], 0⟩
  tcsetattr_ret := fun _ _ _ _ => -1
  tcflush_ret := fun _ _ _ => -1
  read_ret := fun _ _ _ _ => -1
  write_ret := fun _ _ _ _ => -1

/-- A world in which nothing has happened yet: every descriptor has the
attributes `c_iflag = 0`, `c_cflag = 0x2f` (8 bits, two stop bits, receiver
on, odd parity flag without parity enable), speed 9600. -/
def sample_world : World where
  attrs := fun _ => ⟨0, 0, 0x2f, 0, [], 9600⟩
  trace := []

/-- A present handle on descriptor 3. -/
def sample_handle : iotbus_uart_context_h := some ⟨3⟩

/-! ## Vocabulary of the statements -/

/-- Every bit of the mask `m` is set in the flag word `c`. -/
abbrev bits_set (c m : Nat) : Prop := c &&& m = m

/-- Every bit of the mask `m` is clear in the flag word `c`. -/
abbrev bits_clear (c m : Nat) : Prop := c &&& m = 0

/-- The flag words `c` and `d` agree on every bit that is not in the mask
`m`. -/
def same_outside (m c d : Nat) : Prop :=
  ∀ i : Nat, m.testBit i = false → c.testBit i = d.testBit i

/-- The character-size constant that belongs to a byte size: `CS5` for 5,
`CS6` for 6, `CS7` for 7 and `CS8` for 8. -/
def character_size (H : Headers) (bytesize : Int) : Nat :=
  if bytesize = 5 then H.CS5
  else if bytesize = 6 then H.CS6
  else if bytesize = 7 then H.CS7
  else H.CS8

/-- The control flags the mode claim describes for one stop bit: the flags
`c` with the `CSIZE` field cleared and replaced by the character-size
constant, then `PARENB` set and `PARODD` cleared for even parity, both set
for odd parity, both cleared for no parity, and finally `CSTOPB` cleared. -/
def mode_cflag (H : Headers) (c : Nat) (bytesize : Int) (parity : iotbus_uart_parity_e) : Nat :=
  let sized := clear_bits c H.CSIZE ||| character_size H bytesize
  let withParity :=
    match parity with
    | .IOTBUS_UART_PARITY_EVEN => clear_bits (sized ||| H.PARENB) H.PARODD
    | .IOTBUS_UART_PARITY_ODD => (sized ||| H.PARENB) ||| H.PARODD
    | _ => clear_bits (clear_bits sized H.PARENB) H.PARODD
  clear_bits withParity H.CSTOPB

/-- The layout the mode claim presupposes of the control-flag constants: each
character-size constant lies inside the `CSIZE` field, and the `CSIZE` field
and the flags `PARENB`, `PARODD` and `CSTOPB` have no bit in common. -/
def mode_fields_separate (H : Headers) : Prop :=
  bits_set H.CSIZE H.CS5 ∧ bits_set H.CSIZE H.CS6 ∧ bits_set H.CSIZE H.CS7 ∧
  bits_set H.CSIZE H.CS8 ∧
  bits_clear H.CSIZE H.PARENB ∧ bits_clear H.CSIZE H.PARODD ∧ bits_clear H.CSIZE H.CSTOPB ∧
  bits_clear H.PARENB H.PARODD ∧ bits_clear H.PARENB H.CSTOPB ∧ bits_clear H.PARODD H.CSTOPB

instance (H : Headers) : Decidable (mode_fields_separate H) := by
  unfold mode_fields_separate; infer_instance

/-- The control flags the flow-control claim describes: `CRTS_IFLOW` and
`CCTS_OFLOW` both set in `c` when `rtscts` is 1 and both cleared otherwise;
`xonxoff` plays no part. -/
def flow_cflag (H : Headers) (c : Nat) (rtscts : Int) : Nat :=
  if rtscts = 1 then c ||| (H.CRTS_IFLOW ||| H.CCTS_OFLOW)
  else clear_bits c (H.CRTS_IFLOW ||| H.CCTS_OFLOW)

/-- The input flags the flow-control claim describes: `IXON`, `IXOFF` and
`IXANY` all set when `xonxoff` is 1, the flags as they were otherwise;
`rtscts` plays no part. -/
def flow_iflag (H : Headers) (c : Nat) (xonxoff : Int) : Nat :=
  if xonxoff = 1 then c ||| (H.IXON ||| H.IXOFF ||| H.IXANY) else c

/-- The world after a `tcgetattr` on `fd` followed by a `tcsetattr` on `fd`
with `TCSANOW` and the attributes `applied`, together with the status the
attribute-setting functions report for it: the attributes are stored and the
status is `IOTBUS_ERROR_NONE` when the `tcsetattr` returns 0, nothing is
stored and the status is `IOTBUS_ERROR_UNKNOWN` otherwise. -/
def fetched_then_applied (H : Headers) (K : Kernel) (w : World) (fd : Int)
    (applied : termios) : World × Int :=
  if K.tcsetattr_ret { attrs := w.attrs, trace := w.trace ++ [Syscall.tcgetattr fd] }
      fd H.TCSANOW applied = 0 then
    ({ attrs := Function.update w.attrs fd applied,
       trace := w.trace ++ [Syscall.tcgetattr fd, Syscall.tcsetattr fd H.TCSANOW applied] },
      H.IOTBUS_ERROR_NONE)
  else
    ({ attrs := w.attrs,
       trace := w.trace ++ [Syscall.tcgetattr fd, Syscall.tcsetattr fd H.TCSANOW applied] },
      H.IOTBUS_ERROR_UNKNOWN)

/-- The four status codes of the headers are pairwise different. -/
def status_codes_distinct (H : Headers) : Prop :=
  H.IOTBUS_ERROR_NONE ≠ H.IOTBUS_ERROR_INVALID_PARAMETER ∧
  H.IOTBUS_ERROR_NONE ≠ H.IOTBUS_ERROR_NOT_SUPPORTED ∧
  H.IOTBUS_ERROR_NONE ≠ H.IOTBUS_ERROR_UNKNOWN ∧
  H.IOTBUS_ERROR_INVALID_PARAMETER ≠ H.IOTBUS_ERROR_NOT_SUPPORTED ∧
  H.IOTBUS_ERROR_INVALID_PARAMETER ≠ H.IOTBUS_ERROR_UNKNOWN ∧
  H.IOTBUS_ERROR_NOT_SUPPORTED ≠ H.IOTBUS_ERROR_UNKNOWN

instance (H : Headers) : Decidable (status_codes_distinct H) := by
  unfold status_codes_distinct; infer_instance

/-! ## Helper lemmas -/

theorem testBit_clear_bits (c m i : Nat) :
    (clear_bits c m).testBit i = (c.testBit i && !m.testBit i) := by
  unfold clear_bits
  rw [Nat.testBit_xor, Nat.testBit_and]
  cases c.testBit i <;> cases m.testBit i <;> rfl

theorem clear_bits_eq_width (w c m : Nat) (hc : c < 2 ^ w) (hm : m < 2 ^ w) :
    clear_bits c m = c &&& (2 ^ w - 1 - m) := by
  apply Nat.eq_of_testBit_eq
  intro i
  have hsub : 2 ^ w - 1 - m = 2 ^ w - (m + 1) := by omega
  rw [testBit_clear_bits, Nat.testBit_and, hsub, Nat.testBit_two_pow_sub_succ hm]
  by_cases hi : i < w
  · simp [hi]
  · have : c.testBit i = false :=
      Nat.testBit_lt_two_pow (lt_of_lt_of_le hc (Nat.pow_le_pow_right (by decide) (by omega)))
    simp [this]

theorem bits_set_or (c m : Nat) : bits_set (c ||| m) m := by
  apply Nat.eq_of_testBit_eq
  intro i
  rw [Nat.testBit_and, Nat.testBit_or]
  cases c.testBit i <;> cases m.testBit i <;> rfl

theorem bits_clear_clear_bits (c m : Nat) : bits_clear (clear_bits c m) m := by
  apply Nat.eq_of_testBit_eq
  intro i
  rw [Nat.testBit_and, testBit_clear_bits, Nat.zero_testBit]
  cases c.testBit i <;> cases m.testBit i <;> rfl

theorem bits_set_of_or_left (c a b : Nat) (h : bits_set c (a ||| b)) : bits_set c a := by
  apply Nat.eq_of_testBit_eq
  intro i
  have hi := congrArg (fun n => n.testBit i) h
  simp only [Nat.testBit_and, Nat.testBit_or] at hi ⊢
  revert hi
  cases c.testBit i <;> cases a.testBit i <;> cases b.testBit i <;> simp

theorem bits_set_of_or_right (c a b : Nat) (h : bits_set c (a ||| b)) : bits_set c b := by
  rw [show a ||| b = b ||| a from Nat.lor_comm a b] at h
  exact bits_set_of_or_left c b a h

theorem bits_clear_of_or_left (c a b : Nat) (h : bits_clear c (a ||| b)) : bits_clear c a := by
  apply Nat.eq_of_testBit_eq
  intro i
  have hi := congrArg (fun n => n.testBit i) h
  simp only [Nat.testBit_and, Nat.testBit_or, Nat.zero_testBit] at hi ⊢
  revert hi
  cases c.testBit i <;> cases a.testBit i <;> cases b.testBit i <;> simp

theorem bits_clear_of_or_right (c a b : Nat) (h : bits_clear c (a ||| b)) : bits_clear c b := by
  rw [show a ||| b = b ||| a from Nat.lor_comm a b] at h
  exact bits_clear_of_or_left c b a h

theorem same_outside_or (c m : Nat) : same_outside m (c ||| m) c := by
  intro i hi
  rw [Nat.testBit_or, hi, Bool.or_false]

theorem same_outside_clear_bits (c m : Nat) : same_outside m (clear_bits c m) c := by
  intro i hi
  rw [testBit_clear_bits, hi]
  simp

theorem valid_baudrate_loop_eq (H : Headers) (rate : Nat) :
    ∀ n i, i + n ≤ (g_iotbus_uart_br H).length →
      _iotbus_valid_baudrate_loop H rate n i =
        if rate ∈ ((g_iotbus_uart_br H).drop i).take n then 1 else 0 := by
  intro n
  induction n with
  | zero => intro i _; simp [_iotbus_valid_baudrate_loop]
  | succ n ih =>
    intro i hi
    have hlt : i < (g_iotbus_uart_br H).length := by omega
    have hd : (g_iotbus_uart_br H).drop i =
        (g_iotbus_uart_br H).getD i 0 :: (g_iotbus_uart_br H).drop (i + 1) := by
      rw [List.getD_eq_getElem _ _ hlt]
      exact List.drop_eq_getElem_cons hlt
    rw [_iotbus_valid_baudrate_loop, ih (i + 1) (by omega), hd, List.take_succ_cons]
    by_cases h : rate = (g_iotbus_uart_br H).getD i 0
    · simp only [List.mem_cons, h, true_or, if_true]
    · simp only [List.mem_cons, h, false_or, if_false]

theorem valid_baudrate_eq (H : Headers) (rate : Nat) :
    _iotbus_valid_baudrate H rate = if rate ∈ g_iotbus_uart_br H then 1 else 0 := by
  have h := valid_baudrate_loop_eq H rate g_iotbus_uart_size 0 (by simp [g_iotbus_uart_br, g_iotbus_uart_size])
  have hl : (g_iotbus_uart_br H).take g_iotbus_uart_size = g_iotbus_uart_br H :=
    List.take_of_length_le (by simp [g_iotbus_uart_br, g_iotbus_uart_size])
  simpa [_iotbus_valid_baudrate, hl] using h

theorem bits_set_testBit {a b : Nat} (h : bits_set a b) (i : Nat) :
    b.testBit i = true → a.testBit i = true := by
  have hi := congrArg (fun n => n.testBit i) h
  simp only [Nat.testBit_and] at hi
  revert hi
  cases a.testBit i <;> cases b.testBit i <;> simp

theorem bits_clear_testBit {a b : Nat} (h : bits_clear a b) (i : Nat) :
    a.testBit i = true → b.testBit i = false := by
  have hi := congrArg (fun n => n.testBit i) h
  simp only [Nat.testBit_and, Nat.zero_testBit] at hi
  revert hi
  cases a.testBit i <;> cases b.testBit i <;> simp

theorem separate_testBit {cs SZ PE PO ST : Nat} (h1 : bits_set SZ cs) (h2 : bits_clear SZ PE)
    (h3 : bits_clear SZ PO) (h4 : bits_clear SZ ST) (h5 : bits_clear PE PO)
    (h6 : bits_clear PE ST) (h7 : bits_clear PO ST) (i : Nat) :
    (cs.testBit i = true → SZ.testBit i = true) ∧
    (SZ.testBit i = true → PE.testBit i = false) ∧
    (SZ.testBit i = true → PO.testBit i = false) ∧
    (SZ.testBit i = true → ST.testBit i = false) ∧
    (PE.testBit i = true → PO.testBit i = false) ∧
    (PE.testBit i = true → ST.testBit i = false) ∧
    (PO.testBit i = true → ST.testBit i = false) :=
  ⟨bits_set_testBit h1 i, bits_clear_testBit h2 i, bits_clear_testBit h3 i,
    bits_clear_testBit h4 i, bits_clear_testBit h5 i, bits_clear_testBit h6 i,
    bits_clear_testBit h7 i⟩

theorem even_parity_bits (c cs SZ PE PO ST : Nat) (h1 : bits_set SZ cs) (h2 : bits_clear SZ PE)
    (h3 : bits_clear SZ PO) (h4 : bits_clear SZ ST) (h5 : bits_clear PE PO)
    (h6 : bits_clear PE ST) (h7 : bits_clear PO ST) :
    clear_bits (clear_bits ((clear_bits c SZ ||| cs) ||| PE) PO) ST &&& SZ = cs ∧
    bits_set (clear_bits (clear_bits ((clear_bits c SZ ||| cs) ||| PE) PO) ST) PE ∧
    bits_clear (clear_bits (clear_bits ((clear_bits c SZ ||| cs) ||| PE) PO) ST) PO ∧
    bits_clear (clear_bits (clear_bits ((clear_bits c SZ ||| cs) ||| PE) PO) ST) ST ∧
    same_outside (SZ ||| PE ||| PO ||| ST)
      (clear_bits (clear_bits ((clear_bits c SZ ||| cs) ||| PE) PO) ST) c := by
  refine ⟨?_, ?_, ?_, ?_, ?_⟩
  all_goals first
    | (apply Nat.eq_of_testBit_eq; intro i)
    | (intro i)
  all_goals
    have hk := separate_testBit h1 h2 h3 h4 h5 h6 h7 i
    simp only [Nat.testBit_and, Nat.testBit_or, testBit_clear_bits, Nat.zero_testBit] at hk ⊢
    revert hk
    cases c.testBit i <;> cases cs.testBit i <;> cases SZ.testBit i <;> cases PE.testBit i <;>
      cases PO.testBit i <;> cases ST.testBit i <;> simp

theorem odd_parity_bits (c cs SZ PE PO ST : Nat) (h1 : bits_set SZ cs) (h2 : bits_clear SZ PE)
    (h3 : bits_clear SZ PO) (h4 : bits_clear SZ ST) (h5 : bits_clear PE PO)
    (h6 : bits_clear PE ST) (h7 : bits_clear PO ST) :
    clear_bits (((clear_bits c SZ ||| cs) ||| PE) ||| PO) ST &&& SZ = cs ∧
    bits_set (clear_bits (((clear_bits c SZ ||| cs) ||| PE) ||| PO) ST) PE ∧
    bits_set (clear_bits (((clear_bits c SZ ||| cs) ||| PE) ||| PO) ST) PO ∧
    bits_clear (clear_bits (((clear_bits c SZ ||| cs) ||| PE) ||| PO) ST) ST ∧
    same_outside (SZ ||| PE ||| PO ||| ST)
      (clear_bits (((clear_bits c SZ ||| cs) ||| PE) ||| PO) ST) c := by
  refine ⟨?_, ?_, ?_, ?_, ?_⟩
  all_goals first
    | (apply Nat.eq_of_testBit_eq; intro i)
    | (intro i)
  all_goals
    have hk := separate_testBit h1 h2 h3 h4 h5 h6 h7 i
    simp only [Nat.testBit_and, Nat.testBit_or, testBit_clear_bits, Nat.zero_testBit] at hk ⊢
    revert hk
    cases c.testBit i <;> cases cs.testBit i <;> cases SZ.testBit i <;> cases PE.testBit i <;>
      cases PO.testBit i <;> cases ST.testBit i <;> simp

theorem no_parity_bits (c cs SZ PE PO ST : Nat) (h1 : bits_set SZ cs) (h2 : bits_clear SZ PE)
    (h3 : bits_clear SZ PO) (h4 : bits_clear SZ ST) (h5 : bits_clear PE PO)
    (h6 : bits_clear PE ST) (h7 : bits_clear PO ST) :
    clear_bits (clear_bits (clear_bits (clear_bits c SZ ||| cs) PE) PO) ST &&& SZ = cs ∧
    bits_clear (clear_bits (clear_bits (clear_bits (clear_bits c SZ ||| cs) PE) PO) ST) PE ∧
    bits_clear (clear_bits (clear_bits (clear_bits (clear_bits c SZ ||| cs) PE) PO) ST) PO ∧
    bits_clear (clear_bits (clear_bits (clear_bits (clear_bits c SZ ||| cs) PE) PO) ST) ST ∧
    same_outside (SZ ||| PE ||| PO ||| ST)
      (clear_bits (clear_bits (clear_bits (clear_bits c SZ ||| cs) PE) PO) ST) c := by
  refine ⟨?_, ?_, ?_, ?_, ?_⟩
  all_goals first
    | (apply Nat.eq_of_testBit_eq; intro i)
    | (intro i)
  all_goals
    have hk := separate_testBit h1 h2 h3 h4 h5 h6 h7 i
    simp only [Nat.testBit_and, Nat.testBit_or, testBit_clear_bits, Nat.zero_testBit] at hk ⊢
    revert hk
    cases c.testBit i <;> cases cs.testBit i <;> cases SZ.testBit i <;> cases PE.testBit i <;>
      cases PO.testBit i <;> cases ST.testBit i <;> simp

theorem character_size_in_field (H : Headers) (hsep : mode_fields_separate H) (bytesize : Int) :
    bits_set H.CSIZE (character_size H bytesize) := by
  obtain ⟨h5, h6, h7, h8, -⟩ := hsep
  unfold character_size
  split_ifs <;> assumption

theorem set_mode_one_stopbit_path (H : Headers) (K : Kernel) (w : World) (h : _iotbus_uart_s)
    (bytesize : Int) (parity : iotbus_uart_parity_e)
    (hcfg : H.CONFIG_SERIAL_TERMIOS = true) (hget : K.tcgetattr_ret w h.fd = 0)
    (hb : 5 ≤ bytesize ∧ bytesize ≤ 8)
    (hp : parity = .IOTBUS_UART_PARITY_NONE ∨ parity = .IOTBUS_UART_PARITY_ODD ∨
      parity = .IOTBUS_UART_PARITY_EVEN) :
    iotbus_uart_set_mode H K w (some h) bytesize parity 1 =
      fetched_then_applied H K w h.fd
        { w.attrs h.fd with
          c_cflag := mode_cflag H (w.attrs h.fd).c_cflag bytesize parity } := by
  have hb2 : ¬ (bytesize < 5 ∨ bytesize > 8) := by omega
  have hbs : bytesize = 5 ∨ bytesize = 6 ∨ bytesize = 7 ∨ bytesize = 8 := by omega
  rcases hbs with rfl | rfl | rfl | rfl <;> rcases hp with rfl | rfl | rfl <;>
    simp only [iotbus_uart_set_mode, hcfg, tcgetattr, tcsetattr, hget, World.record,
      fetched_then_applied, mode_cflag, character_size] <;>
    simp <;> split_ifs <;> simp

theorem set_flowcontrol_path (H : Headers) (K : Kernel) (w : World) (h : _iotbus_uart_s)
    (xonxoff rtscts : Int)
    (hcfg : H.CONFIG_SERIAL_TERMIOS = true) (hget : K.tcgetattr_ret w h.fd = 0)
    (hx : xonxoff = 0 ∨ xonxoff = 1) (hr : rtscts = 0 ∨ rtscts = 1) :
    iotbus_uart_set_flowcontrol H K w (some h) xonxoff rtscts =
      fetched_then_applied H K w h.fd
        { w.attrs h.fd with
          c_cflag := flow_cflag H (w.attrs h.fd).c_cflag rtscts
          c_iflag := flow_iflag H (w.attrs h.fd).c_iflag xonxoff } := by
  rcases hx with rfl | rfl <;> rcases hr with rfl | rfl <;>
    simp only [iotbus_uart_set_flowcontrol, hcfg, tcgetattr, tcsetattr, hget, World.record,
      fetched_then_applied, flow_cflag, flow_iflag] <;>
    simp <;> split_ifs <;> simp

theorem set_flowcontrol_success_inv (H : Headers) (K : Kernel) (w : World) (h : _iotbus_uart_s)
    (xonxoff rtscts : Int) (hd : status_codes_distinct H)
    (hret : (iotbus_uart_set_flowcontrol H K w (some h) xonxoff rtscts).2 = H.IOTBUS_ERROR_NONE) :
    (iotbus_uart_set_flowcontrol H K w (some h) xonxoff rtscts).1.attrs h.fd =
      { w.attrs h.fd with
        c_cflag := flow_cflag H (w.attrs h.fd).c_cflag rtscts
        c_iflag := flow_iflag H (w.attrs h.fd).c_iflag xonxoff } := by
  obtain ⟨d1, d2, d3, -, -, -⟩ := hd
  have hcfg : H.CONFIG_SERIAL_TERMIOS = true := by
    by_contra hc
    simp [iotbus_uart_set_flowcontrol, hc] at hret
    exact d2 hret.symm
  have hx : xonxoff = 0 ∨ xonxoff = 1 := by
    by_contra hc
    have hx2 : xonxoff ≠ 1 ∧ xonxoff ≠ 0 := by omega
    simp [iotbus_uart_set_flowcontrol, hcfg, hx2] at hret
    exact d1 hret.symm
  have hr : rtscts = 0 ∨ rtscts = 1 := by
    by_contra hc
    have hr2 : rtscts ≠ 1 ∧ rtscts ≠ 0 := by omega
    rcases hx with rfl | rfl <;>
      simp [iotbus_uart_set_flowcontrol, hcfg, hr2] at hret <;>
      exact d1 hret.symm
  have hget : K.tcgetattr_ret w h.fd = 0 := by
    by_contra hc
    rcases hx with rfl | rfl <;> rcases hr with rfl | rfl <;>
      simp [iotbus_uart_set_flowcontrol, hcfg, tcgetattr, hc] at hret <;>
      exact d3 hret.symm
  rw [set_flowcontrol_path H K w h xonxoff rtscts hcfg hget hx hr] at hret ⊢
  unfold fetched_then_applied at hret ⊢
  split_ifs at hret ⊢ with hset
  · simp
  · exact absurd hret.symm d3

theorem set_flowcontrol_off_iflag (H : Headers) (K : Kernel) (w : World)
    (hnd : iotbus_uart_context_h) (rtscts : Int) (fd : Int) :
    ((iotbus_uart_set_flowcontrol H K w hnd 0 rtscts).1.attrs fd).c_iflag =
      (w.attrs fd).c_iflag := by
  cases hcfg : H.CONFIG_SERIAL_TERMIOS
  · simp [iotbus_uart_set_flowcontrol, hcfg]
  · cases hnd with
    | none => simp [iotbus_uart_set_flowcontrol, hcfg]
    | some h =>
      by_cases hr : rtscts = 0 ∨ rtscts = 1
      · by_cases hget : K.tcgetattr_ret w h.fd = 0
        · rw [set_flowcontrol_path H K w h 0 rtscts hcfg hget (Or.inl rfl) hr]
          unfold fetched_then_applied
          split_ifs
          · by_cases hfd : fd = h.fd
            · subst hfd
              simp [flow_iflag]
            · simp [Function.update_noteq hfd]
          · rfl
        · have hr2 : ¬ (rtscts ≠ 1 ∧ rtscts ≠ 0) := by omega
          simp only [iotbus_uart_set_flowcontrol, hcfg, hr2, tcgetattr]
          simp [hget, World.record]
      · have hr2 : rtscts ≠ 1 ∧ rtscts ≠ 0 := by omega
        simp [iotbus_uart_set_flowcontrol, hcfg, hr2]

/-! ## Baud rate -/

/-- C1: with termios support compiled in and a present handle,
`iotbus_uart_set_baudrate` returns `IOTBUS_ERROR_INVALID_PARAMETER` and leaves
the world untouched (no system call, so no attributes fetched or applied) for
every rate that is not an entry of the 30-entry table `g_iotbus_uart_br`; for
every rate that is an entry it does not return
`IOTBUS_ERROR_INVALID_PARAMETER`; and `_iotbus_valid_baudrate` is 1 exactly
when the rate occurs among the first `g_iotbus_uart_size = 30` entries and 0
otherwise.  The status codes of success and of a system-call failure are
taken to differ from `IOTBUS_ERROR_INVALID_PARAMETER`. -/
theorem set_baudrate_rejects_exactly_unlisted_rates (H : Headers) (K : Kernel) (w : World)
    (h : _iotbus_uart_s) (rate : Nat)
    (hcfg : H.CONFIG_SERIAL_TERMIOS = true)
    (hnone : H.IOTBUS_ERROR_NONE ≠ H.IOTBUS_ERROR_INVALID_PARAMETER)
    (hunk : H.IOTBUS_ERROR_UNKNOWN ≠ H.IOTBUS_ERROR_INVALID_PARAMETER) :
    (g_iotbus_uart_br H).length = 30 ∧ g_iotbus_uart_size = 30 ∧
    (_iotbus_valid_baudrate H rate =
      if rate ∈ (g_iotbus_uart_br H).take g_iotbus_uart_size then 1 else 0) ∧
    (rate ∉ g_iotbus_uart_br H →
      iotbus_uart_set_baudrate H K w (some h) rate = (w, H.IOTBUS_ERROR_INVALID_PARAMETER)) ∧
    (rate ∈ g_iotbus_uart_br H →
      (iotbus_uart_set_baudrate H K w (some h) rate).2 ≠ H.IOTBUS_ERROR_INVALID_PARAMETER) := by
  have hl : (g_iotbus_uart_br H).take g_iotbus_uart_size = g_iotbus_uart_br H :=
    List.take_of_length_le (by simp [g_iotbus_uart_br, g_iotbus_uart_size])
  refine ⟨by simp [g_iotbus_uart_br], rfl, ?_, ?_, ?_⟩
  · rw [hl]; exact valid_baudrate_eq H rate
  · intro hn
    simp [iotbus_uart_set_baudrate, hcfg, valid_baudrate_eq, hn]
  · intro hm
    simp only [iotbus_uart_set_baudrate, hcfg, valid_baudrate_eq, hm, tcgetattr, tcsetattr]
    simp only [Bool.not_true, Bool.false_eq_true, if_false, if_true, one_ne_zero]
    split_ifs <;> simpa using by assumption

/-- Witness of `set_baudrate_rejects_exactly_unlisted_rates`: on the sample
platform 9601 is rejected without a system call and 9600 is not rejected. -/
theorem set_baudrate_rejects_exactly_unlisted_rates_witness :
    sample_headers.CONFIG_SERIAL_TERMIOS = true ∧
    sample_headers.IOTBUS_ERROR_NONE ≠ sample_headers.IOTBUS_ERROR_INVALID_PARAMETER ∧
    sample_headers.IOTBUS_ERROR_UNKNOWN ≠ sample_headers.IOTBUS_ERROR_INVALID_PARAMETER ∧
    9601 ∉ g_iotbus_uart_br sample_headers ∧
    9600 ∈ g_iotbus_uart_br sample_headers ∧
    iotbus_uart_set_baudrate sample_headers ok_kernel sample_world (some ⟨3⟩) 9601 =
      (sample_world, sample_headers.IOTBUS_ERROR_INVALID_PARAMETER) ∧
    (iotbus_uart_set_baudrate sample_headers ok_kernel sample_world (some ⟨3⟩) 9600).2 ≠
      sample_headers.IOTBUS_ERROR_INVALID_PARAMETER :=
  ⟨by decide, by decide, by decide, by decide, by decide,
    (set_baudrate_rejects_exactly_unlisted_rates sample_headers ok_kernel sample_world ⟨3⟩ 9601
      (by decide) (by decide) (by decide)).2.2.2.1 (by decide),
    (set_baudrate_rejects_exactly_unlisted_rates sample_headers ok_kernel sample_world ⟨3⟩ 9600
      (by decide) (by decide) (by decide)).2.2.2.2 (by decide)⟩

/-- C5: with termios support compiled in, a present handle and a rate of the
baud table: when the attribute fetch fails, `iotbus_uart_set_baudrate`
returns `IOTBUS_ERROR_UNKNOWN` having performed the fetch only; otherwise it
performs the fetch and one `tcsetattr` with `TCSANOW` whose attributes are the
fetched ones with `c_speed` replaced by the rate and every other field as
fetched, the device stores them exactly when that call succeeds, and the
result is `IOTBUS_ERROR_NONE` when it succeeds and `IOTBUS_ERROR_UNKNOWN`
when it fails. -/
theorem set_baudrate_replaces_speed_only (H : Headers) (K : Kernel) (w : World)
    (h : _iotbus_uart_s) (rate : Nat)
    (hcfg : H.CONFIG_SERIAL_TERMIOS = true)
    (hrate : rate ∈ g_iotbus_uart_br H) :
    (K.tcgetattr_ret w h.fd ≠ 0 →
      iotbus_uart_set_baudrate H K w (some h) rate =
        ({ attrs := w.attrs, trace := w.trace ++ [Syscall.tcgetattr h.fd] },
          H.IOTBUS_ERROR_UNKNOWN)) ∧
    (K.tcgetattr_ret w h.fd = 0 →
      ∃ applied : termios,
        applied.c_speed = rate ∧
        applied.c_iflag = (w.attrs h.fd).c_iflag ∧
        applied.c_oflag = (w.attrs h.fd).c_oflag ∧
        applied.c_cflag = (w.attrs h.fd).c_cflag ∧
        applied.c_lflag = (w.attrs h.fd).c_lflag ∧
        applied.c_cc = (w.attrs h.fd).c_cc ∧
        iotbus_uart_set_baudrate H K w (some h) rate =
          fetched_then_applied H K w h.fd applied) := by
  constructor
  · intro hf
    simp [iotbus_uart_set_baudrate, hcfg, valid_baudrate_eq, hrate, tcgetattr, hf, World.record]
  · intro hs
    refine ⟨{ w.attrs h.fd with c_speed := rate }, rfl, rfl, rfl, rfl, rfl, rfl, ?_⟩
    simp only [iotbus_uart_set_baudrate, hcfg, valid_baudrate_eq, hrate, tcgetattr, tcsetattr,
      hs, World.record, fetched_then_applied]
    simp only [Bool.not_true, Bool.false_eq_true, if_false, if_true, one_ne_zero, ne_eq,
      not_true_eq_false]
    split_ifs <;> simp

/-- Witness of `set_baudrate_replaces_speed_only`: on the sample platform the
rate 115200 is in the table; with a successful fetch the call is answered
`IOTBUS_ERROR_NONE` after applying the fetched attributes with the new
speed, and with a failing fetch it is answered `IOTBUS_ERROR_UNKNOWN`. -/
theorem set_baudrate_replaces_speed_only_witness :
    sample_headers.CONFIG_SERIAL_TERMIOS = true ∧
    115200 ∈ g_iotbus_uart_br sample_headers ∧
    ok_kernel.tcgetattr_ret sample_world 3 = 0 ∧
    failing_kernel.tcgetattr_ret sample_world 3 ≠ 0 ∧
    (iotbus_uart_set_baudrate sample_headers ok_kernel sample_world (some ⟨3⟩) 115200).2 =
      sample_headers.IOTBUS_ERROR_NONE ∧
    iotbus_uart_set_baudrate sample_headers failing_kernel sample_world (some ⟨3⟩) 115200 =
      ({ attrs := sample_world.attrs, trace := sample_world.trace ++ [Syscall.tcgetattr 3] },
        sample_headers.IOTBUS_ERROR_UNKNOWN) ∧
    ∃ applied : termios,
      applied.c_speed = 115200 ∧
      applied.c_iflag = (sample_world.attrs 3).c_iflag ∧
      applied.c_oflag = (sample_world.attrs 3).c_oflag ∧
      applied.c_cflag = (sample_world.attrs 3).c_cflag ∧
      applied.c_lflag = (sample_world.attrs 3).c_lflag ∧
      applied.c_cc = (sample_world.attrs 3).c_cc ∧
      iotbus_uart_set_baudrate sample_headers ok_kernel sample_world (some ⟨3⟩) 115200 =
        fetched_then_applied sample_headers ok_kernel sample_world 3 applied :=
  ⟨by decide, by decide, by decide, by decide, by decide,
    (set_baudrate_replaces_speed_only sample_headers failing_kernel sample_world ⟨3⟩ 115200
      (by decide) (by decide)).1 (by decide),
    (set_baudrate_replaces_speed_only sample_headers ok_kernel sample_world ⟨3⟩ 115200
      (by decide) (by decide)).2 (by decide)⟩

/-! ## Mode -/

/-- C2: with termios support compiled in, a present handle whose attribute
fetch succeeds, a byte size from 5 to 8 and a parity among none, odd and
even, `iotbus_uart_set_mode` called with two stop bits returns
`IOTBUS_ERROR_INVALID_PARAMETER`; the only system call it performs is the
fetch, so `tcsetattr` is not invoked and the attributes of every descriptor
are as before. -/
theorem set_mode_two_stopbits_invalid (H : Headers) (K : Kernel) (w : World)
    (h : _iotbus_uart_s) (bytesize : Int) (parity : iotbus_uart_parity_e)
    (hcfg : H.CONFIG_SERIAL_TERMIOS = true) (hget : K.tcgetattr_ret w h.fd = 0)
    (hb : 5 ≤ bytesize ∧ bytesize ≤ 8)
    (hp : parity = .IOTBUS_UART_PARITY_NONE ∨ parity = .IOTBUS_UART_PARITY_ODD ∨
      parity = .IOTBUS_UART_PARITY_EVEN) :
    iotbus_uart_set_mode H K w (some h) bytesize parity 2 =
      ({ attrs := w.attrs, trace := w.trace ++ [Syscall.tcgetattr h.fd] },
        H.IOTBUS_ERROR_INVALID_PARAMETER) := by
  have hb2 : ¬ (bytesize < 5 ∨ bytesize > 8) := by omega
  rcases hp with rfl | rfl | rfl <;>
    simp [iotbus_uart_set_mode, hcfg, tcgetattr, hget, World.record, hb2]

/-- Witness of `set_mode_two_stopbits_invalid`: 8 bits, no parity and two stop
bits on the sample platform. -/
theorem set_mode_two_stopbits_invalid_witness :
    sample_headers.CONFIG_SERIAL_TERMIOS = true ∧
    ok_kernel.tcgetattr_ret sample_world 3 = 0 ∧
    ((5 : Int) ≤ 8 ∧ (8 : Int) ≤ 8) ∧
    iotbus_uart_set_mode sample_headers ok_kernel sample_world (some ⟨3⟩) 8
        .IOTBUS_UART_PARITY_NONE 2 =
      ({ attrs := sample_world.attrs, trace := sample_world.trace ++ [Syscall.tcgetattr 3] },
        sample_headers.IOTBUS_ERROR_INVALID_PARAMETER) :=
  ⟨by decide, by decide, by decide,
    set_mode_two_stopbits_invalid sample_headers ok_kernel sample_world ⟨3⟩ 8
      .IOTBUS_UART_PARITY_NONE (by decide) (by decide) (by decide) (Or.inl rfl)⟩

/-- C3, counterexample: with termios support compiled in, a present handle
and the byte size 4, on a device whose attribute fetch fails
`iotbus_uart_set_mode` returns `IOTBUS_ERROR_UNKNOWN`, which on the sample
headers is not `IOTBUS_ERROR_INVALID_PARAMETER`. -/
theorem set_mode_bad_bytesize_fetch_fails :
    sample_headers.CONFIG_SERIAL_TERMIOS = true ∧
    failing_kernel.tcgetattr_ret sample_world 3 ≠ 0 ∧
    (iotbus_uart_set_mode sample_headers failing_kernel sample_world (some ⟨3⟩) 4
        .IOTBUS_UART_PARITY_NONE 1).2 = sample_headers.IOTBUS_ERROR_UNKNOWN ∧
    (iotbus_uart_set_mode sample_headers failing_kernel sample_world (some ⟨3⟩) 4
        .IOTBUS_UART_PARITY_NONE 1).2 ≠ sample_headers.IOTBUS_ERROR_INVALID_PARAMETER := by
  decide

/-- C3 as amended: with termios support compiled in, a present handle and a
byte size below 5 or above 8, `iotbus_uart_set_mode` fails for every parity,
every stop-bit value and every device state, having performed the attribute
fetch only: with `IOTBUS_ERROR_INVALID_PARAMETER` when the fetch succeeds and
with `IOTBUS_ERROR_UNKNOWN` when the fetch fails. -/
theorem set_mode_bad_bytesize (H : Headers) (K : Kernel) (w : World)
    (h : _iotbus_uart_s) (bytesize : Int) (parity : iotbus_uart_parity_e) (stopbits : Int)
    (hcfg : H.CONFIG_SERIAL_TERMIOS = true)
    (hb : bytesize < 5 ∨ 8 < bytesize) :
    (K.tcgetattr_ret w h.fd = 0 →
      iotbus_uart_set_mode H K w (some h) bytesize parity stopbits =
        ({ attrs := w.attrs, trace := w.trace ++ [Syscall.tcgetattr h.fd] },
          H.IOTBUS_ERROR_INVALID_PARAMETER)) ∧
    (K.tcgetattr_ret w h.fd ≠ 0 →
      iotbus_uart_set_mode H K w (some h) bytesize parity stopbits =
        ({ attrs := w.attrs, trace := w.trace ++ [Syscall.tcgetattr h.fd] },
          H.IOTBUS_ERROR_UNKNOWN)) := by
  have hb2 : bytesize < 5 ∨ bytesize > 8 := hb
  constructor
  · intro hget
    simp [iotbus_uart_set_mode, hcfg, tcgetattr, hget, World.record, hb2]
  · intro hget
    simp [iotbus_uart_set_mode, hcfg, tcgetattr, hget, World.record]

/-- Witness of `set_mode_bad_bytesize`: the byte size 9 with odd parity and
one stop bit, on a kernel whose fetch succeeds and on one whose fetch
fails. -/
theorem set_mode_bad_bytesize_witness :
    sample_headers.CONFIG_SERIAL_TERMIOS = true ∧
    ((9 : Int) < 5 ∨ (8 : Int) < 9) ∧
    ok_kernel.tcgetattr_ret sample_world 3 = 0 ∧
    failing_kernel.tcgetattr_ret sample_world 3 ≠ 0 ∧
    iotbus_uart_set_mode sample_headers ok_kernel sample_world (some ⟨3⟩) 9
        .IOTBUS_UART_PARITY_ODD 1 =
      ({ attrs := sample_world.attrs, trace := sample_world.trace ++ [Syscall.tcgetattr 3] },
        sample_headers.IOTBUS_ERROR_INVALID_PARAMETER) ∧
    iotbus_uart_set_mode sample_headers failing_kernel sample_world (some ⟨3⟩) 9
        .IOTBUS_UART_PARITY_ODD 1 =
      ({ attrs := sample_world.attrs, trace := sample_world.trace ++ [Syscall.tcgetattr 3] },
        sample_headers.IOTBUS_ERROR_UNKNOWN) :=
  ⟨by decide, by decide, by decide, by decide,
    (set_mode_bad_bytesize sample_headers ok_kernel sample_world ⟨3⟩ 9
      .IOTBUS_UART_PARITY_ODD 1 (by decide) (by decide)).1 (by decide),
    (set_mode_bad_bytesize sample_headers failing_kernel sample_world ⟨3⟩ 9
      .IOTBUS_UART_PARITY_ODD 1 (by decide) (by decide)).2 (by decide)⟩

/-- C4: with termios support compiled in, a present handle whose attribute
fetch succeeds with control flags `c`, a byte size from 5 to 8, a parity among
none, odd and even and one stop bit, `iotbus_uart_set_mode` performs the
fetch and one `tcsetattr` with `TCSANOW`; the attributes it applies equal the
fetched ones except for `c_cflag`, which is `c` with the `CSIZE` field cleared
and replaced by the character-size constant of the byte size, `PARENB` set
and `PARODD` cleared for even parity, both set for odd, both cleared for
none, and `CSTOPB` cleared; the device stores them and the result is
`IOTBUS_ERROR_NONE` when the `tcsetattr` succeeds, and nothing is stored and
the result is `IOTBUS_ERROR_UNKNOWN` when it fails.  When the constants are
laid out in separate fields, the applied `c_cflag` holds the character-size
constant in its `CSIZE` field, has the parity bits as listed, has `CSTOPB`
clear, and agrees with `c` on every other bit. -/
theorem set_mode_one_stopbit_applies (H : Headers) (K : Kernel) (w : World)
    (h : _iotbus_uart_s) (bytesize : Int) (parity : iotbus_uart_parity_e)
    (hcfg : H.CONFIG_SERIAL_TERMIOS = true) (hget : K.tcgetattr_ret w h.fd = 0)
    (hb : 5 ≤ bytesize ∧ bytesize ≤ 8)
    (hp : parity = .IOTBUS_UART_PARITY_NONE ∨ parity = .IOTBUS_UART_PARITY_ODD ∨
      parity = .IOTBUS_UART_PARITY_EVEN) :
    ∃ applied : termios,
      applied.c_cflag = mode_cflag H (w.attrs h.fd).c_cflag bytesize parity ∧
      applied.c_iflag = (w.attrs h.fd).c_iflag ∧
      applied.c_oflag = (w.attrs h.fd).c_oflag ∧
      applied.c_lflag = (w.attrs h.fd).c_lflag ∧
      applied.c_cc = (w.attrs h.fd).c_cc ∧
      applied.c_speed = (w.attrs h.fd).c_speed ∧
      iotbus_uart_set_mode H K w (some h) bytesize parity 1 =
        fetched_then_applied H K w h.fd applied ∧
      (mode_fields_separate H →
        applied.c_cflag &&& H.CSIZE = character_size H bytesize ∧
        (parity = .IOTBUS_UART_PARITY_EVEN →
          bits_set applied.c_cflag H.PARENB ∧ bits_clear applied.c_cflag H.PARODD) ∧
        (parity = .IOTBUS_UART_PARITY_ODD →
          bits_set applied.c_cflag H.PARENB ∧ bits_set applied.c_cflag H.PARODD) ∧
        (parity = .IOTBUS_UART_PARITY_NONE →
          bits_clear applied.c_cflag H.PARENB ∧ bits_clear applied.c_cflag H.PARODD) ∧
        bits_clear applied.c_cflag H.CSTOPB ∧
        same_outside (H.CSIZE ||| H.PARENB ||| H.PARODD ||| H.CSTOPB)
          applied.c_cflag (w.attrs h.fd).c_cflag) := by
  refine ⟨{ w.attrs h.fd with c_cflag := mode_cflag H (w.attrs h.fd).c_cflag bytesize parity },
    rfl, rfl, rfl, rfl, rfl, rfl, set_mode_one_stopbit_path H K w h bytesize parity hcfg hget hb hp,
    ?_⟩
  intro hsep
  have hcs := character_size_in_field H hsep bytesize
  obtain ⟨-, -, -, -, h2, h3, h4, h5, h6, h7⟩ := hsep
  rcases hp with rfl | rfl | rfl
  · obtain ⟨a, b, c, d, e⟩ := no_parity_bits (w.attrs h.fd).c_cflag
      (character_size H bytesize) H.CSIZE H.PARENB H.PARODD H.CSTOPB hcs h2 h3 h4 h5 h6 h7
    exact ⟨a, fun hh => (by cases hh), fun hh => (by cases hh), fun _ => ⟨b, c⟩, d, e⟩
  · obtain ⟨a, b, c, d, e⟩ := odd_parity_bits (w.attrs h.fd).c_cflag
      (character_size H bytesize) H.CSIZE H.PARENB H.PARODD H.CSTOPB hcs h2 h3 h4 h5 h6 h7
    exact ⟨a, fun hh => (by cases hh), fun _ => ⟨b, c⟩, fun hh => (by cases hh), d, e⟩
  · obtain ⟨a, b, c, d, e⟩ := even_parity_bits (w.attrs h.fd).c_cflag
      (character_size H bytesize) H.CSIZE H.PARENB H.PARODD H.CSTOPB hcs h2 h3 h4 h5 h6 h7
    exact ⟨a, fun _ => ⟨b, c⟩, fun hh => (by cases hh), fun hh => (by cases hh), d, e⟩

/-- Witness of `set_mode_one_stopbit_applies`: 7 bits, even parity and one
stop bit on the sample platform, whose device starts with the control flags
`0x2f`; the call succeeds with `IOTBUS_ERROR_NONE`. -/
theorem set_mode_one_stopbit_applies_witness :
    sample_headers.CONFIG_SERIAL_TERMIOS = true ∧
    ok_kernel.tcgetattr_ret sample_world 3 = 0 ∧
    ((5 : Int) ≤ 7 ∧ (7 : Int) ≤ 8) ∧
    mode_fields_separate sample_headers ∧
    mode_cflag sample_headers (sample_world.attrs 3).c_cflag 7 .IOTBUS_UART_PARITY_EVEN = 0x1a ∧
    (iotbus_uart_set_mode sample_headers ok_kernel sample_world (some ⟨3⟩) 7
        .IOTBUS_UART_PARITY_EVEN 1).2 = sample_headers.IOTBUS_ERROR_NONE ∧
    ∃ applied : termios,
      applied.c_cflag =
        mode_cflag sample_headers (sample_world.attrs 3).c_cflag 7 .IOTBUS_UART_PARITY_EVEN ∧
      iotbus_uart_set_mode sample_headers ok_kernel sample_world (some ⟨3⟩) 7
          .IOTBUS_UART_PARITY_EVEN 1 =
        fetched_then_applied sample_headers ok_kernel sample_world 3 applied ∧
      bits_set applied.c_cflag sample_headers.PARENB ∧
      bits_clear applied.c_cflag sample_headers.PARODD ∧
      bits_clear applied.c_cflag sample_headers.CSTOPB :=
  ⟨by decide, by decide, by decide, by decide, by decide, by decide,
    match set_mode_one_stopbit_applies sample_headers ok_kernel sample_world ⟨3⟩ 7
      .IOTBUS_UART_PARITY_EVEN (by decide) (by decide) (by decide) (Or.inr (Or.inr rfl)) with
    | ⟨applied, hc, _, _, _, _, _, hrun, hbits⟩ =>
      ⟨applied, hc, hrun, ((hbits (by decide)).2.1 rfl).1, ((hbits (by decide)).2.1 rfl).2,
        (hbits (by decide)).2.2.2.2.1⟩⟩

/-! ## Flow control -/

/-- C6: with termios support compiled in and a present handle: for `xonxoff`
and `rtscts` in {0,1} and a successful attribute fetch,
`iotbus_uart_set_flowcontrol` performs the fetch and one `tcsetattr` with
`TCSANOW` (reporting `IOTBUS_ERROR_NONE` when it succeeds and
`IOTBUS_ERROR_UNKNOWN` when it fails) whose attributes have a `c_cflag` that
is a function of the fetched `c_cflag` and `rtscts` alone (`CRTS_IFLOW` and
`CCTS_OFLOW` both set for 1, both clear for 0, every other bit as fetched), a
`c_iflag` that is a function of the fetched `c_iflag` and `xonxoff` alone
(`IXON`, `IXOFF` and `IXANY` all set for 1, the fetched word itself for 0),
and every other field as fetched; and for an `xonxoff` or `rtscts` outside
{0,1} it returns `IOTBUS_ERROR_INVALID_PARAMETER` and performs no system
call. -/
theorem set_flowcontrol_flags (H : Headers) (K : Kernel) (w : World) (h : _iotbus_uart_s)
    (xonxoff rtscts : Int) (hcfg : H.CONFIG_SERIAL_TERMIOS = true) :
    ((xonxoff = 0 ∨ xonxoff = 1) → (rtscts = 0 ∨ rtscts = 1) → K.tcgetattr_ret w h.fd = 0 →
      ∃ applied : termios,
        iotbus_uart_set_flowcontrol H K w (some h) xonxoff rtscts =
          fetched_then_applied H K w h.fd applied ∧
        applied.c_cflag = flow_cflag H (w.attrs h.fd).c_cflag rtscts ∧
        applied.c_iflag = flow_iflag H (w.attrs h.fd).c_iflag xonxoff ∧
        applied.c_oflag = (w.attrs h.fd).c_oflag ∧
        applied.c_lflag = (w.attrs h.fd).c_lflag ∧
        applied.c_cc = (w.attrs h.fd).c_cc ∧
        applied.c_speed = (w.attrs h.fd).c_speed ∧
        (rtscts = 1 →
          bits_set applied.c_cflag H.CRTS_IFLOW ∧ bits_set applied.c_cflag H.CCTS_OFLOW) ∧
        (rtscts = 0 →
          bits_clear applied.c_cflag H.CRTS_IFLOW ∧ bits_clear applied.c_cflag H.CCTS_OFLOW) ∧
        same_outside (H.CRTS_IFLOW ||| H.CCTS_OFLOW) applied.c_cflag (w.attrs h.fd).c_cflag ∧
        (xonxoff = 1 →
          bits_set applied.c_iflag H.IXON ∧ bits_set applied.c_iflag H.IXOFF ∧
          bits_set applied.c_iflag H.IXANY) ∧
        (xonxoff = 0 → applied.c_iflag = (w.attrs h.fd).c_iflag)) ∧
    (¬ (xonxoff = 0 ∨ xonxoff = 1) ∨ ¬ (rtscts = 0 ∨ rtscts = 1) →
      iotbus_uart_set_flowcontrol H K w (some h) xonxoff rtscts =
        (w, H.IOTBUS_ERROR_INVALID_PARAMETER)) := by
  constructor
  · intro hx hr hget
    refine ⟨{ w.attrs h.fd with
        c_cflag := flow_cflag H (w.attrs h.fd).c_cflag rtscts
        c_iflag := flow_iflag H (w.attrs h.fd).c_iflag xonxoff },
      set_flowcontrol_path H K w h xonxoff rtscts hcfg hget hx hr,
      rfl, rfl, rfl, rfl, rfl, rfl, ?_, ?_, ?_, ?_, ?_⟩
    · intro h1
      have hs := bits_set_or (w.attrs h.fd).c_cflag (H.CRTS_IFLOW ||| H.CCTS_OFLOW)
      simp only [flow_cflag, h1, if_true]
      exact ⟨bits_set_of_or_left _ _ _ hs, bits_set_of_or_right _ _ _ hs⟩
    · intro h0
      have hs := bits_clear_clear_bits (w.attrs h.fd).c_cflag (H.CRTS_IFLOW ||| H.CCTS_OFLOW)
      simp only [flow_cflag, h0, zero_ne_one, if_false]
      exact ⟨bits_clear_of_or_left _ _ _ hs, bits_clear_of_or_right _ _ _ hs⟩
    · simp only [flow_cflag]
      split_ifs
      · exact same_outside_or _ _
      · exact same_outside_clear_bits _ _
    · intro h1
      have hs := bits_set_or (w.attrs h.fd).c_iflag (H.IXON ||| H.IXOFF ||| H.IXANY)
      simp only [flow_iflag, h1, if_true]
      exact ⟨bits_set_of_or_left _ _ _ (bits_set_of_or_left _ _ _ hs),
        bits_set_of_or_right _ _ _ (bits_set_of_or_left _ _ _ hs),
        bits_set_of_or_right _ _ _ hs⟩
    · intro h0
      simp [flow_iflag, h0]
  · intro hbad
    rcases hbad with hx | hr
    · have hx2 : xonxoff ≠ 1 ∧ xonxoff ≠ 0 := by omega
      simp [iotbus_uart_set_flowcontrol, hcfg, hx2]
    · have hr2 : rtscts ≠ 1 ∧ rtscts ≠ 0 := by omega
      simp [iotbus_uart_set_flowcontrol, hcfg, hr2]

/-- Witness of `set_flowcontrol_flags`: on the sample platform the call with
`xonxoff = 1` and `rtscts = 0` succeeds, and the call with `rtscts = 2` is
refused without a system call. -/
theorem set_flowcontrol_flags_witness :
    sample_headers.CONFIG_SERIAL_TERMIOS = true ∧
    ok_kernel.tcgetattr_ret sample_world 3 = 0 ∧
    (iotbus_uart_set_flowcontrol sample_headers ok_kernel sample_world (some ⟨3⟩) 1 0).2 =
      sample_headers.IOTBUS_ERROR_NONE ∧
    (∃ applied : termios,
      iotbus_uart_set_flowcontrol sample_headers ok_kernel sample_world (some ⟨3⟩) 1 0 =
        fetched_then_applied sample_headers ok_kernel sample_world 3 applied ∧
      applied.c_cflag = flow_cflag sample_headers (sample_world.attrs 3).c_cflag 0 ∧
      applied.c_iflag = flow_iflag sample_headers (sample_world.attrs 3).c_iflag 1) ∧
    iotbus_uart_set_flowcontrol sample_headers ok_kernel sample_world (some ⟨3⟩) 1 2 =
      (sample_world, sample_headers.IOTBUS_ERROR_INVALID_PARAMETER) :=
  ⟨by decide, by decide, by decide,
    match (set_flowcontrol_flags sample_headers ok_kernel sample_world ⟨3⟩ 1 0 (by decide)).1
      (by decide) (by decide) (by decide) with
    | ⟨applied, hrun, hc, hi, _⟩ => ⟨applied, hrun, hc, hi⟩,
    (set_flowcontrol_flags sample_headers ok_kernel sample_world ⟨3⟩ 1 2 (by decide)).2
      (Or.inr (by decide))⟩

/-- C10: in the device model, where `tcgetattr` returns the attributes last
stored by a successful `tcsetattr`: a call of `iotbus_uart_set_flowcontrol`
with `xonxoff = 0` leaves the `c_iflag` of every descriptor as it was,
whatever the handle, `rtscts` and the outcome, so it never clears a `c_iflag`
bit; and for a present handle, after a call with `xonxoff = 1` that returned
`IOTBUS_ERROR_NONE` followed by a call with `xonxoff = 0` that returned
`IOTBUS_ERROR_NONE` (each with any `rtscts`, which success confines to
{0,1}), the device's `c_iflag` has `IXON`, `IXOFF` and `IXANY` all set.  The
four status codes are taken to be pairwise different. -/
theorem xonxoff_off_never_clears_input_flags (H : Headers) (K : Kernel) :
    (∀ (w : World) (hnd : iotbus_uart_context_h) (rtscts fd : Int),
      ((iotbus_uart_set_flowcontrol H K w hnd 0 rtscts).1.attrs fd).c_iflag =
        (w.attrs fd).c_iflag ∧
      ∀ i : Nat, (w.attrs fd).c_iflag.testBit i = true →
        ((iotbus_uart_set_flowcontrol H K w hnd 0 rtscts).1.attrs fd).c_iflag.testBit i
          = true) ∧
    (∀ (w : World) (h : _iotbus_uart_s) (rtscts rtscts2 : Int),
      status_codes_distinct H →
      (iotbus_uart_set_flowcontrol H K w (some h) 1 rtscts).2 = H.IOTBUS_ERROR_NONE →
      (iotbus_uart_set_flowcontrol H K
        (iotbus_uart_set_flowcontrol H K w (some h) 1 rtscts).1 (some h) 0 rtscts2).2 =
          H.IOTBUS_ERROR_NONE →
      bits_set ((iotbus_uart_set_flowcontrol H K
        (iotbus_uart_set_flowcontrol H K w (some h) 1 rtscts).1 (some h) 0
          rtscts2).1.attrs h.fd).c_iflag H.IXON ∧
      bits_set ((iotbus_uart_set_flowcontrol H K
        (iotbus_uart_set_flowcontrol H K w (some h) 1 rtscts).1 (some h) 0
          rtscts2).1.attrs h.fd).c_iflag H.IXOFF ∧
      bits_set ((iotbus_uart_set_flowcontrol H K
        (iotbus_uart_set_flowcontrol H K w (some h) 1 rtscts).1 (some h) 0
          rtscts2).1.attrs h.fd).c_iflag H.IXANY) := by
  constructor
  · intro w hnd rtscts fd
    have he := set_flowcontrol_off_iflag H K w hnd rtscts fd
    exact ⟨he, fun i hi => by rw [he]; exact hi⟩
  · intro w h rtscts rtscts2 hd h1 _
    rw [set_flowcontrol_off_iflag, set_flowcontrol_success_inv H K w h 1 rtscts hd h1]
    have hs := bits_set_or (w.attrs h.fd).c_iflag (H.IXON ||| H.IXOFF ||| H.IXANY)
    simp only [flow_iflag, if_true]
    exact ⟨bits_set_of_or_left _ _ _ (bits_set_of_or_left _ _ _ hs),
      bits_set_of_or_right _ _ _ (bits_set_of_or_left _ _ _ hs),
      bits_set_of_or_right _ _ _ hs⟩

/-- Witness of `xonxoff_off_never_clears_input_flags`: on the sample platform,
whose device starts with `c_iflag = 0`, enabling and then disabling XON/XOFF
both succeed and leave `IXON` set. -/
theorem xonxoff_off_never_clears_input_flags_witness :
    status_codes_distinct sample_headers ∧
    (sample_world.attrs 3).c_iflag = 0 ∧
    (iotbus_uart_set_flowcontrol sample_headers ok_kernel sample_world (some ⟨3⟩) 1 0).2 =
      sample_headers.IOTBUS_ERROR_NONE ∧
    (iotbus_uart_set_flowcontrol sample_headers ok_kernel
      (iotbus_uart_set_flowcontrol sample_headers ok_kernel sample_world (some ⟨3⟩) 1 0).1
      (some ⟨3⟩) 0 1).2 = sample_headers.IOTBUS_ERROR_NONE ∧
    bits_set ((iotbus_uart_set_flowcontrol sample_headers ok_kernel
      (iotbus_uart_set_flowcontrol sample_headers ok_kernel sample_world (some ⟨3⟩) 1 0).1
      (some ⟨3⟩) 0 1).1.attrs 3).c_iflag sample_headers.IXON :=
  ⟨by decide, by decide, by decide, by decide,
    ((xonxoff_off_never_clears_input_flags sample_headers ok_kernel).2 sample_world ⟨3⟩ 0 1
      (by decide) (by decide) (by decide)).1⟩

/-! ## Queue flush -/

/-- C9: `iotbus_uart_flush`, case by case in the order the function tests
them.  When termios support is compiled out it returns
`IOTBUS_ERROR_NOT_SUPPORTED` for every handle, the absent one included,
without a system call.  When termios support is compiled in, an absent handle
gives `IOTBUS_ERROR_INVALID_PARAMETER` without a system call, and a present
handle gives exactly one `tcflush` with `TCIOFLUSH` on the handle's
descriptor, no change of attributes, and the result
`IOTBUS_ERROR_NOT_SUPPORTED` when that call returns a negative value and
`IOTBUS_ERROR_NONE` otherwise. -/
theorem flush_by_build_and_handle (H : Headers) (K : Kernel) (w : World) :
    (H.CONFIG_SERIAL_TERMIOS = false →
      ∀ hnd, iotbus_uart_flush H K w hnd = (w, H.IOTBUS_ERROR_NOT_SUPPORTED)) ∧
    (H.CONFIG_SERIAL_TERMIOS = true →
      iotbus_uart_flush H K w none = (w, H.IOTBUS_ERROR_INVALID_PARAMETER) ∧
      ∀ h : _iotbus_uart_s,
        (iotbus_uart_flush H K w (some h)).1 =
          { attrs := w.attrs, trace := w.trace ++ [Syscall.tcflush h.fd H.TCIOFLUSH] } ∧
        (K.tcflush_ret w h.fd H.TCIOFLUSH < 0 →
          (iotbus_uart_flush H K w (some h)).2 = H.IOTBUS_ERROR_NOT_SUPPORTED) ∧
        (0 ≤ K.tcflush_ret w h.fd H.TCIOFLUSH →
          (iotbus_uart_flush H K w (some h)).2 = H.IOTBUS_ERROR_NONE)) := by
  refine ⟨fun hcfg hnd => by simp [iotbus_uart_flush, hcfg], fun hcfg => ⟨?_, fun h => ⟨?_, ?_, ?_⟩⟩⟩
  · simp [iotbus_uart_flush, hcfg]
  · simp only [iotbus_uart_flush, hcfg, tcflush, World.record]
    simp only [Bool.not_true, Bool.false_eq_true, if_false]
    split_ifs <;> rfl
  · intro hneg
    simp [iotbus_uart_flush, hcfg, tcflush, hneg]
  · intro hpos
    simp [iotbus_uart_flush, hcfg, tcflush, not_lt.mpr hpos]

/-- Witness of `flush_by_build_and_handle`: the compiled-out build answers
`IOTBUS_ERROR_NOT_SUPPORTED` to an absent handle, and the compiled-in build
flushes descriptor 3 and answers `IOTBUS_ERROR_NONE` on a kernel whose
`tcflush` returns 0 and `IOTBUS_ERROR_NOT_SUPPORTED` on one whose `tcflush`
returns -1. -/
theorem flush_by_build_and_handle_witness :
    sample_headers_no_termios.CONFIG_SERIAL_TERMIOS = false ∧
    sample_headers.CONFIG_SERIAL_TERMIOS = true ∧
    0 ≤ ok_kernel.tcflush_ret sample_world 3 sample_headers.TCIOFLUSH ∧
    failing_kernel.tcflush_ret sample_world 3 sample_headers.TCIOFLUSH < 0 ∧
    iotbus_uart_flush sample_headers_no_termios ok_kernel sample_world none =
      (sample_world, sample_headers_no_termios.IOTBUS_ERROR_NOT_SUPPORTED) ∧
    iotbus_uart_flush sample_headers ok_kernel sample_world none =
      (sample_world, sample_headers.IOTBUS_ERROR_INVALID_PARAMETER) ∧
    (iotbus_uart_flush sample_headers ok_kernel sample_world (some ⟨3⟩)).2 =
      sample_headers.IOTBUS_ERROR_NONE ∧
    (iotbus_uart_flush sample_headers failing_kernel sample_world (some ⟨3⟩)).2 =
      sample_headers.IOTBUS_ERROR_NOT_SUPPORTED :=
  ⟨by decide, by decide, by decide, by decide,
    (flush_by_build_and_handle sample_headers_no_termios ok_kernel sample_world).1
      (by decide) none,
    ((flush_by_build_and_handle sample_headers ok_kernel sample_world).2 (by decide)).1,
    (((flush_by_build_and_handle sample_headers ok_kernel sample_world).2 (by decide)).2
      ⟨3⟩).2.2 (by decide),
    (((flush_by_build_and_handle sample_headers failing_kernel sample_world).2 (by decide)).2
      ⟨3⟩).2.1 (by decide)⟩

/-! ## Read and write -/

/-- C7: for a present handle, a non-null buffer and a length above 0,
`iotbus_uart_read` performs exactly one `read` of `length` bytes on the
handle's descriptor and returns its result unchanged when that is
non-negative (0 included) and `IOTBUS_ERROR_UNKNOWN` when it is negative; for
an absent handle, a null buffer or length 0 it returns
`IOTBUS_ERROR_INVALID_PARAMETER` and performs no system call. -/
theorem read_forwards_once (H : Headers) (K : Kernel) (w : World) :
    (∀ (h : _iotbus_uart_s) (b length : Nat), 0 < length →
      (iotbus_uart_read H K w (some h) (some b) length).1 =
        { attrs := w.attrs, trace := w.trace ++ [Syscall.read h.fd b length] } ∧
      (0 ≤ K.read_ret w h.fd b length →
        (iotbus_uart_read H K w (some h) (some b) length).2 = K.read_ret w h.fd b length) ∧
      (K.read_ret w h.fd b length < 0 →
        (iotbus_uart_read H K w (some h) (some b) length).2 = H.IOTBUS_ERROR_UNKNOWN)) ∧
    (∀ (hnd : iotbus_uart_context_h) (buf : CharPtr) (length : Nat),
      hnd = none ∨ buf = none ∨ length = 0 →
        iotbus_uart_read H K w hnd buf length = (w, H.IOTBUS_ERROR_INVALID_PARAMETER)) := by
  constructor
  · intro h b length hlen
    have hl : ¬ length ≤ 0 := by omega
    refine ⟨?_, ?_, ?_⟩
    · simp only [iotbus_uart_read, read, World.record, hl, if_false]
      split_ifs <;> rfl
    · intro hpos
      simp [iotbus_uart_read, read, hl, not_lt.mpr hpos]
    · intro hneg
      simp [iotbus_uart_read, read, hl, hneg]
  · intro hnd buf length hbad
    rcases hbad with rfl | rfl | rfl
    · rfl
    · cases hnd <;> rfl
    · cases hnd <;> cases buf <;> rfl

/-- Witness of `read_forwards_once`: on the sample platform a read of 8 bytes
is forwarded once and its result 7 is returned, a failing read gives
`IOTBUS_ERROR_UNKNOWN`, and a read of length 0 is refused without a system
call. -/
theorem read_forwards_once_witness :
    (0 : Nat) < 8 ∧
    0 ≤ ok_kernel.read_ret sample_world 3 100 8 ∧
    failing_kernel.read_ret sample_world 3 100 8 < 0 ∧
    (iotbus_uart_read sample_headers ok_kernel sample_world (some ⟨3⟩) (some 100) 8).2 = 7 ∧
    (iotbus_uart_read sample_headers failing_kernel sample_world (some ⟨3⟩) (some 100) 8).2 =
      sample_headers.IOTBUS_ERROR_UNKNOWN ∧
    (iotbus_uart_read sample_headers ok_kernel sample_world (some ⟨3⟩) (some 100) 8).1.trace =
      [Syscall.read 3 100 8] ∧
    iotbus_uart_read sample_headers ok_kernel sample_world (some ⟨3⟩) (some 100) 0 =
      (sample_world, sample_headers.IOTBUS_ERROR_INVALID_PARAMETER) :=
  ⟨by decide, by decide, by decide,
    ((read_forwards_once sample_headers ok_kernel sample_world).1 ⟨3⟩ 100 8
      (by decide)).2.1 (by decide),
    ((read_forwards_once sample_headers failing_kernel sample_world).1 ⟨3⟩ 100 8
      (by decide)).2.2 (by decide),
    congrArg World.trace ((read_forwards_once sample_headers ok_kernel sample_world).1 ⟨3⟩ 100 8
      (by decide)).1,
    (read_forwards_once sample_headers ok_kernel sample_world).2 (some ⟨3⟩) (some 100) 0
      (Or.inr (Or.inr rfl))⟩

/-- C8: for a present handle, a non-null buffer and a length above 0,
`iotbus_uart_write` performs exactly one `write` of `length` bytes on the
handle's descriptor and returns the byte count `n` of that call itself
whenever `n ≥ 0`, whatever `IOTBUS_ERROR_NONE` and `length` are, and
`IOTBUS_ERROR_UNKNOWN` when the call's result is negative; for an absent
handle, a null buffer or length 0 it returns `IOTBUS_ERROR_INVALID_PARAMETER`
and performs no system call. -/
theorem write_returns_byte_count (H : Headers) (K : Kernel) (w : World) :
    (∀ (h : _iotbus_uart_s) (b length : Nat), 0 < length →
      (iotbus_uart_write H K w (some h) (some b) length).1 =
        { attrs := w.attrs, trace := w.trace ++ [Syscall.write h.fd b length] } ∧
      (∀ n : Int, K.write_ret w h.fd b length = n → 0 ≤ n →
        (iotbus_uart_write H K w (some h) (some b) length).2 = n) ∧
      (K.write_ret w h.fd b length < 0 →
        (iotbus_uart_write H K w (some h) (some b) length).2 = H.IOTBUS_ERROR_UNKNOWN)) ∧
    (∀ (hnd : iotbus_uart_context_h) (buf : CharPtr) (length : Nat),
      hnd = none ∨ buf = none ∨ length = 0 →
        iotbus_uart_write H K w hnd buf length = (w, H.IOTBUS_ERROR_INVALID_PARAMETER)) := by
  constructor
  · intro h b length hlen
    have hl : ¬ length ≤ 0 := by omega
    refine ⟨?_, ?_, ?_⟩
    · simp only [iotbus_uart_write, write, World.record, hl, if_false]
      split_ifs <;> rfl
    · intro n hn hpos
      subst hn
      simp [iotbus_uart_write, write, hl, not_lt.mpr hpos]
    · intro hneg
      simp [iotbus_uart_write, write, hl, hneg]
  · intro hnd buf length hbad
    rcases hbad with rfl | rfl | rfl
    · rfl
    · cases hnd <;> rfl
    · cases hnd <;> cases buf <;> rfl

/-- Witness of `write_returns_byte_count`: on the sample platform a write of
8 bytes of which the kernel takes 7 returns 7, which is neither
`IOTBUS_ERROR_NONE` nor the length; a failing write gives
`IOTBUS_ERROR_UNKNOWN`; a null buffer is refused without a system call. -/
theorem write_returns_byte_count_witness :
    (0 : Nat) < 8 ∧
    ok_kernel.write_ret sample_world 3 100 8 = 7 ∧
    (7 : Int) ≠ sample_headers.IOTBUS_ERROR_NONE ∧
    failing_kernel.write_ret sample_world 3 100 8 < 0 ∧
    (iotbus_uart_write sample_headers ok_kernel sample_world (some ⟨3⟩) (some 100) 8).2 = 7 ∧
    (iotbus_uart_write sample_headers failing_kernel sample_world (some ⟨3⟩) (some 100) 8).2 =
      sample_headers.IOTBUS_ERROR_UNKNOWN ∧
    (iotbus_uart_write sample_headers ok_kernel sample_world (some ⟨3⟩) (some 100) 8).1.trace =
      [Syscall.write 3 100 8] ∧
    iotbus_uart_write sample_headers ok_kernel sample_world (some ⟨3⟩) none 8 =
      (sample_world, sample_headers.IOTBUS_ERROR_INVALID_PARAMETER) :=
  ⟨by decide, by decide, by decide, by decide,
    ((write_returns_byte_count sample_headers ok_kernel sample_world).1 ⟨3⟩ 100 8
      (by decide)).2.1 7 (by decide) (by decide),
    ((write_returns_byte_count sample_headers failing_kernel sample_world).1 ⟨3⟩ 100 8
      (by decide)).2.2 (by decide),
    congrArg World.trace ((write_returns_byte_count sample_headers ok_kernel sample_world).1
      ⟨3⟩ 100 8 (by decide)).1,
    (write_returns_byte_count sample_headers ok_kernel sample_world).2 (some ⟨3⟩) none 8
      (Or.inr (Or.inl rfl))⟩

end IotbusUart
